import Mathlib

/-!
Verification of the exception subsystem of the elvish shell evaluator
(`eval/exception.go`): the unified `Exception` value, the pipeline error
aggregator, the control-flow signal type and the external-command exit-status
decoder. Definitions are shallow embeddings of the Go source; machine
integers are modelled as `Nat`/`Int` with the bit masks and wrap-arounds of
the source made explicit.
-/

/-- Modelled from the spec: `parse.Quote` (in the `parse` package, outside the
sampled source) renders a string using the scripting language's string-quoting
rules: a string that is already a plain bareword is returned unchanged, any
other string is single-quoted with embedded single quotes doubled. Every claim
treats the quoted form opaquely, so only totality and determinism matter. -/
def Quote (s : String) : String :=
  if !s.isEmpty && s.toList.all (fun c =>
      c.isAlphanum || c = Char.ofNat 45 || c = Char.ofNat 95 ||
      c = Char.ofNat 46 || c = Char.ofNat 47) then
    s
  else
    String.mk [Char.ofNat 39] ++
      String.join (s.toList.map (fun c =>
        if c = Char.ofNat 39 then String.mk [Char.ofNat 39, Char.ofNat 39]
        else String.mk [c])) ++
      String.mk [Char.ofNat 39]

/-!
## Wait status decoding

Embedding of Go's `syscall.WaitStatus` for linux (the platform the sampled
source is built for), as consumed by `eval/exception.go`. A wait status is a
`uint32`; it is modelled as a `Nat`, with every observation defined by the
same masks and shifts as the Go standard library:

  Exited:     `w&0x7F == 0`
  Signaled:   `w&0x7F != 0x7F && w&0x7F != 0`
  Stopped:    `w&0xFF == 0x7F`
  CoreDump:   `Signaled && w&0x80 != 0`
  ExitStatus: `-1` unless exited, else `(w>>8)&0xFF`
  Signal:     `-1` unless signaled, else `w&0x7F`
  StopSignal: `-1` unless stopped, else `(w>>8)&0xFF`
  TrapCause:  `-1` unless stop signal is SIGTRAP, else `w>>16`
-/

namespace WaitStatus

def Exited (w : Nat) : Bool := w &&& 0x7F == 0

def Signaled (w : Nat) : Bool := w &&& 0x7F != 0x7F && w &&& 0x7F != 0

def Stopped (w : Nat) : Bool := w &&& 0xFF == 0x7F

def CoreDump (w : Nat) : Bool := Signaled w && w &&& 0x80 != 0

def ExitStatus (w : Nat) : Int :=
  if Exited w then ((w >>> 8) &&& 0xFF : Nat) else -1

def Signal (w : Nat) : Int :=
  if Signaled w then (w &&& 0x7F : Nat) else -1

def StopSignal (w : Nat) : Int :=
  if Stopped w then ((w >>> 8) &&& 0xFF : Nat) else -1

/-- `SIGTRAP` on linux. -/
def SIGTRAP : Int := 5

def TrapCause (w : Nat) : Int :=
  if StopSignal w != SIGTRAP then -1 else ((w >>> 8) >>> 8 : Nat)

end WaitStatus

/-- The linux table of signal names used by `syscall.Signal.String`
(index `i` holds the name of signal `i`; index 0 is empty). -/
def signals : List String :=
  ["", "hangup", "interrupt", "quit", "illegal instruction",
   "trace/breakpoint trap", "aborted", "bus error", "floating point exception",
   "killed", "user defined signal 1", "segmentation fault",
   "user defined signal 2", "broken pipe", "alarm clock", "terminated",
   "stack fault", "child exited", "continued", "stopped (signal)", "stopped",
   "stopped (tty input)", "stopped (tty output)", "urgent I/O condition",
   "CPU time limit exceeded", "file size limit exceeded",
   "virtual timer expired", "profiling timer expired", "window changed",
   "I/O possible", "power failure", "bad system call"]

/-- Embedding of Go's `syscall.Signal.String`: the table entry when the signal
number is in range and the entry is nonempty, otherwise `"signal <n>"`. -/
def signalString (s : Int) : String :=
  if 0 ≤ s ∧ s < (signals.length : Int) then
    let str := signals.getD s.toNat ""
    if str != "" then str else "signal " ++ toString s
  else "signal " ++ toString s

/-- `ExternalCmdExit` from `eval/exception.go`: the embedded raw wait status,
the command's display name, and (meaningful only for stopped processes) the
pid. -/
structure ExternalCmdExit where
  WaitStatus : Nat
  CmdName : String
  Pid : Int
deriving DecidableEq, Repr

/-- `NewExternalCmdExit` from `eval/exception.go`: `nil` (here `none`) for a
normal exit with code 0; otherwise the failure value, with the pid zeroed
unless the process was stopped. -/
def NewExternalCmdExit (name : String) (ws : Nat) (pid : Int) :
    Option ExternalCmdExit :=
  if WaitStatus.Exited ws && WaitStatus.ExitStatus ws == 0 then none
  else some ⟨ws, name, if WaitStatus.Stopped ws then pid else 0⟩

/-- `FakeExternalCmdExit` from `eval/exception.go`: fabricates the raw status
`exit<<8 + sig` (converted to `uint32`, hence the `% 2^32`, which also models
the two's-complement low bits for negative inputs) and a zero pid. -/
def FakeExternalCmdExit (name : String) (exit : Int) (sig : Int) :
    ExternalCmdExit :=
  ⟨((exit * 256 + sig) % (2 ^ 32 : Int)).toNat, name, 0⟩

/-- `ExternalCmdExit.Error` from `eval/exception.go`. -/
def ExternalCmdExit.Error (e : ExternalCmdExit) : String :=
  let ws := e.WaitStatus
  let quotedName := Quote e.CmdName
  if WaitStatus.Exited ws then
    quotedName ++ " exited with " ++ toString (WaitStatus.ExitStatus ws)
  else if WaitStatus.Signaled ws then
    let msg := quotedName ++ " killed by signal " ++
      signalString (WaitStatus.Signal ws)
    if WaitStatus.CoreDump ws then msg ++ " (core dumped)" else msg
  else if WaitStatus.Stopped ws then
    let msg := quotedName ++ " stopped by signal " ++
      (signalString (WaitStatus.StopSignal ws) ++
        (" (pid=" ++ (toString e.Pid ++ ")")))
    let trap := WaitStatus.TrapCause ws
    if trap != -1 then msg ++ (" (trapped " ++ (toString trap ++ ")")) else msg
  else
    quotedName ++ " has unknown WaitStatus " ++ toString ws

/-!
## Flow signals

`Flow` in the source is a `uint` with constants `Return = 0`, `Break = 1`,
`Continue = 2` and name table `flowNames`. Its `Error` method formats
out-of-range tags with `fmt.Sprintf("!(BAD FLOW: %v)", f)`; since `Flow`
itself implements Go's `error` interface, the `%v` verb re-invokes
`Flow.Error` on the very same value, so that call never returns. The
embedding therefore gives `Flow.Error` an explicit call-depth fuel: `none`
means the computation did not finish within the given depth, and a result
that is `none` for every fuel is a divergent (crashing) call.
-/

def flowNames : List String := ["return", "break", "continue"]

/-- Fueled embedding of `Flow.Error`: an in-range tag returns its table
entry; an out-of-range tag recursively formats itself via `%v` (Go's `fmt`
dispatches `%v` on an `error` value to its own `Error` method). -/
def flowErrorFuel : Nat → Nat → Option String
  | 0, _ => none
  | fuel + 1, f =>
    if h : f < flowNames.length then some (flowNames.get ⟨f, h⟩)
    else (flowErrorFuel fuel f).map
      (fun s => "!(BAD FLOW: " ++ (s ++ ")"))

/-- Fueled embedding of `Flow.Repr`: `"?(" + f.Error() + ")"`. -/
def flowReprFuel (fuel f : Nat) : Option String :=
  (flowErrorFuel fuel f).map (fun s => "?(" ++ (s ++ ")"))

/-- `Flow.Error` restricted to the three named constants (the only values
production code constructs, per the closed-set invariant); on these the
source's `Error` terminates at once with the table entry. -/
def flowError (f : Fin 3) : String := flowNames.get ⟨f.1, f.isLt⟩

/-- `Flow.Repr` on the three named constants. -/
def flowRepr (f : Fin 3) : String := "?(" ++ (flowError f ++ ")")

/-- `Flow.Pprint` on the three named constants. -/
def flowPprint (f : Fin 3) : String := "\x1b[33;1m" ++ (flowError f ++ "\x1b[m")

/-!
## The Exception value
-/

/-- Modelled from the spec: `util.SourceContext` (outside the sampled source)
is an opaque source-location frame; a traceback is a singly-linked chain of
frames, each knowing how to render itself. The rendered form of a frame is
kept opaque as a plain string. -/
inductive SourceContext : Type where
  | mk (rendered : String) (next : Option SourceContext)

mutual

/-- The cause payload of an `Exception`, as a tagged union over the error
kinds constructed in `eval/exception.go`: a generic message-carrying error, a
flow signal, an `ExternalCmdExit`, or a `PipelineError` (whose slots are
`*Exception` pointers, hence `Option Exception`). The flow tag is `Fin 3`
because production code only ever synthesizes the three named constants as
causes. -/
inductive Err : Type where
  | plain (msg : String)
  | flow (f : Fin 3)
  | extExit (e : ExternalCmdExit)
  | pipeline (errs : List (Option Exception))

/-- `Exception` from `eval/exception.go`: an optional cause (`nil` cause =
success) and a traceback chain. -/
inductive Exception : Type where
  | mk (cause : Option Err) (traceback : Option SourceContext)

end

def Exception.cause : Exception → Option Err
  | .mk c _ => c

def Exception.traceback : Exception → Option SourceContext
  | .mk _ tb => tb

/-- `OK` from `eval/exception.go`: the shared zero-value `Exception`. -/
def OK : Exception := .mk none none

/-- Modelled from the spec: `New(cause)` (the construction API, outside the
sampled source) wraps a non-nil cause with an initially empty traceback. -/
def New (c : Err) : Exception := .mk (some c) none

/-- `Exception.Bool` from `eval/exception.go`: `exc.Cause == nil`. -/
def Exception.Bool (exc : Exception) : Bool := exc.cause.isNone

/-- `PipelineError` from `eval/exception.go`: one `*Exception` slot per
pipeline stage, in stage order. -/
structure PipelineError where
  Errors : List (Option Exception)

mutual

/-- The `Error()` message of a cause value: delegation of
`Exception.Error` (`exc.Cause.Error()`) to the cause's own method. -/
def Err.Error : Err → String
  | .plain msg => msg
  | .flow f => flowError f
  | .extExit e => ExternalCmdExit.Error e
  | .pipeline errs => "(" ++ (String.intercalate " | " (pipelineSlots errs) ++ ")")

/-- The per-slot strings of `PipelineError.Error`, in slot order. -/
def pipelineSlots : List (Option Exception) → List String
  | [] => []
  | e :: rest => slotString e :: pipelineSlots rest

/-- One slot of `PipelineError.Error`: `"<nil>"` when the slot is a nil
pointer or has a nil cause, otherwise the stage's own error message. -/
def slotString : Option Exception → String
  | none => "<nil>"
  | some (.mk none _) => "<nil>"
  | some (.mk (some c) _) => Err.Error c

end

/-- `PipelineError.Error` from `eval/exception.go`: the slots in index
order, separated by `" | "`, wrapped in parentheses. -/
def PipelineError.Error (pe : PipelineError) : String :=
  "(" ++ (String.intercalate " | " (pipelineSlots pe.Errors) ++ ")")

/-- `Exception.Error` from `eval/exception.go` is `exc.Cause.Error()`:
calling it with a nil cause dereferences a nil interface and panics, which
the embedding renders as `none`. -/
def Exception.Error : Exception → Option String
  | .mk none _ => none
  | .mk (some c) _ => some (Err.Error c)

/-- `allok` from `eval/exception.go`: scans the slice and fails on the first
element that is a non-nil pointer with a non-nil cause. -/
def allok : List (Option Exception) → Bool
  | [] => true
  | e :: es =>
    match e with
    | some (.mk (some _) _) => false
    | _ => allok es

/-!
## Script-literal representation (`Repr`)

`PipelineError.Repr` invokes `e.Repr(...)` on each slot without a nil check;
on a nil `*Exception` the method body reads `exc.Cause` through the nil
receiver and panics. Panicking computations are rendered as `none`.
-/

/-- `len("?(multi-error ")`, the element indent added by
`PipelineError.Repr`. -/
def multiErrorHeadLen : Int := 14

/-- `strings.Repeat(" ", n)`. -/
def spacesOf (n : Int) : String := String.mk (List.replicate n.toNat ' ')

mutual

/-- `Exception.Repr` from `eval/exception.go`: `"$ok"` for a nil cause;
otherwise the cause's own `Repr` when the cause implements `Reprer`, else
the generic `?(error <quoted message>)` fallback. -/
def Exception.Repr : Exception → Int → Option String
  | .mk none _, _ => some "$ok"
  | .mk (some c) _, indent => Err.reprOf c indent

/-- Dispatch of `exc.Cause.(Reprer)`: among the cause kinds, `Flow` and
`PipelineError` have a `Repr` method; a plain error and `ExternalCmdExit` do
not, so they take the `?(error ...)` fallback. -/
def Err.reprOf : Err → Int → Option String
  | .flow f, _ => some (flowRepr f)
  | .pipeline errs, indent => pipelineRepr errs indent
  | .plain msg, _ => some ("?(error " ++ (Quote msg ++ ")"))
  | .extExit e, _ => some ("?(error " ++ (Quote (ExternalCmdExit.Error e) ++ ")"))

/-- `PipelineError.Repr` from `eval/exception.go` on the slot list: the
header `?(multi-error`, then each slot's own `Repr` preceded by a newline
plus alignment spaces when `indent > 0` or a single space otherwise, then
`)`. -/
def pipelineRepr (errs : List (Option Exception)) (indent : Int) :
    Option String :=
  (pipelineReprSlots errs indent).map
    (fun body => "?(multi-error" ++ (body ++ ")"))

/-- The concatenated slot parts of `PipelineError.Repr`; `none` as soon as
rendering any slot panics. -/
def pipelineReprSlots : List (Option Exception) → Int → Option String
  | [], _ => some ""
  | e :: rest, indent =>
    let sep := if indent > 0 then "\n" ++ spacesOf (indent + multiErrorHeadLen)
      else " "
    match exceptionPtrRepr e (indent + multiErrorHeadLen) with
    | none => none
    | some s =>
      match pipelineReprSlots rest indent with
      | none => none
      | some t => some (sep ++ (s ++ t))

/-- A call `e.Repr(indent)` through a `*Exception` pointer: on a nil pointer
the method body reads `exc.Cause` of a nil receiver and panics (`none`). -/
def exceptionPtrRepr : Option Exception → Int → Option String
  | none, _ => none
  | some exc, indent => Exception.Repr exc indent

end

/-- `PipelineError.Repr` from `eval/exception.go`. -/
def PipelineError.Repr (pe : PipelineError) (indent : Int) : Option String :=
  pipelineRepr pe.Errors indent

/-!
## Pretty-printing
-/

/-- The traceback part of `Exception.Pprint`: each frame of the chain is
preceded by `"\n  "` and rendered by the frame's own formatter. -/
def tracebackStr : Option SourceContext → String
  | none => ""
  | some (.mk rendered next) => "\n  " ++ (rendered ++ tracebackStr next)

/-- `Exception.Pprint` from `eval/exception.go`: the colorized
`Exception: <message>` header (using the cause's own `Pprint` when the cause
implements `Pprinter` — among the cause kinds only `Flow` does — else the
red-bold generic form), then `Traceback:` and the frames. With a nil cause
the `Pprinter` type assertion fails and `exc.Cause.Error()` dereferences a
nil interface and panics (`none`). -/
def Exception.Pprint : Exception → Option String
  | .mk none _ => none
  | .mk (some c) tb =>
    let msg := match c with
      | .flow f => flowPprint f
      | c => "\x1b[31;1m" ++ (Err.Error c ++ "\x1b[m")
    some ("Exception: " ++ (msg ++ ("\n" ++ ("Traceback:" ++ tracebackStr tb))))

/-!
## Helper lemmas
-/

theorem land_127_eq_mod (w : Nat) : w &&& 127 = w % 128 := by
  have h := Nat.and_pow_two_sub_one_eq_mod w 7
  norm_num at h
  omega

theorem land_255_eq_mod (w : Nat) : w &&& 255 = w % 256 := by
  have h := Nat.and_pow_two_sub_one_eq_mod w 8
  norm_num at h
  omega

theorem stopped_masks {w : Nat} (h : WaitStatus.Stopped w = true) :
    WaitStatus.Exited w = false ∧ WaitStatus.Signaled w = false := by
  simp only [WaitStatus.Stopped, beq_iff_eq] at h
  have h255 := land_255_eq_mod w
  have h127 := land_127_eq_mod w
  have hdvd : w % 256 % 128 = w % 128 := Nat.mod_mod_of_dvd w (by norm_num)
  have h1 : w &&& 127 = 127 := by omega
  simp [WaitStatus.Exited, WaitStatus.Signaled, h1]

theorem signaled_not_exited {w : Nat} (h : WaitStatus.Signaled w = true) :
    WaitStatus.Exited w = false := by
  simp only [WaitStatus.Signaled, Bool.and_eq_true, bne_iff_ne, ne_eq] at h
  simp only [WaitStatus.Exited, beq_eq_false_iff_ne, ne_eq]
  exact h.2

/-!
## Claims
-/

/-- Claim C1: `Exception.Bool` is true exactly when the cause is nil; in
particular `OK.Bool() == true` and an exception built from any (non-nil)
cause has `Bool() == false`. -/
theorem exception_bool_iff_nil_cause :
    (∀ exc : Exception, Exception.Bool exc = true ↔ exc.cause = none) ∧
    Exception.Bool OK = true ∧
    (∀ c : Err, Exception.Bool (New c) = false) := by
  refine ⟨fun exc => ?_, rfl, fun c => rfl⟩
  cases exc with
  | mk cause tb => cases cause <;> simp [Exception.Bool, Exception.cause]

/-- Witness for C1 at the concrete cause `Err.plain "boom"`. -/
theorem exception_bool_witness :
    Exception.Bool (New (Err.plain "boom")) = false :=
  exception_bool_iff_nil_cause.2.2 (Err.plain "boom")

/-- Claim C2: `NewExternalCmdExit` returns nil iff the status is a normal
exit with code 0; every other status yields a value, whose `Pid` is the
given pid only in the stopped case and 0 otherwise. -/
theorem newExternalCmdExit_ok_iff (name : String) (ws : Nat) (pid : Int) :
    (NewExternalCmdExit name ws pid = none ↔
      (WaitStatus.Exited ws = true ∧ WaitStatus.ExitStatus ws = 0)) ∧
    (∀ r, NewExternalCmdExit name ws pid = some r →
      r.Pid = if WaitStatus.Stopped ws = true then pid else 0) ∧
    (¬(WaitStatus.Exited ws = true ∧ WaitStatus.ExitStatus ws = 0) →
      ∃ r, NewExternalCmdExit name ws pid = some r) := by
  by_cases hc : (WaitStatus.Exited ws && WaitStatus.ExitStatus ws == 0) = true
  · have hp : WaitStatus.Exited ws = true ∧ WaitStatus.ExitStatus ws = 0 := by
      simpa [Bool.and_eq_true, beq_iff_eq] using hc
    refine ⟨by simp [NewExternalCmdExit, hc, hp], ?_, fun hn => absurd hp hn⟩
    intro r hr
    simp [NewExternalCmdExit, hc] at hr
  · have hp : ¬(WaitStatus.Exited ws = true ∧ WaitStatus.ExitStatus ws = 0) := by
      simpa [Bool.and_eq_true, beq_iff_eq] using hc
    refine ⟨by simp [NewExternalCmdExit, hc, hp], ?_, fun _ => ?_⟩
    · intro r hr
      simp [NewExternalCmdExit, hc] at hr
      simp [← hr]
    · exact ⟨⟨ws, name, if WaitStatus.Stopped ws = true then pid else 0⟩,
        by simp [NewExternalCmdExit, hc]⟩

/-- Witness for C2: status 256 (normal exit, code 1) is not an all-clear, so
a failure value is produced. -/
theorem newExternalCmdExit_witness :
    ∃ r, NewExternalCmdExit "cat" 256 7 = some r :=
  (newExternalCmdExit_ok_iff "cat" 256 7).2.2 (by decide)

/-- Claim C3: the synthetic status built by `FakeExternalCmdExit` is the
real wait-status encoding `exit<<8 + sig` and decodes identically to it:
`NewExternalCmdExit` on that status classifies success/failure by the
normal-exit-code-0 test, and in the failure case produces exactly the
synthetic value, so the `Error()` message matches. -/
theorem fakeExternalCmdExit_decodes_like_real (name : String) (exit sig : Int) :
    (FakeExternalCmdExit name exit sig).WaitStatus =
      ((exit * 256 + sig) % (2 ^ 32 : Int)).toNat ∧
    (NewExternalCmdExit name (FakeExternalCmdExit name exit sig).WaitStatus 0 = none ↔
      (WaitStatus.Exited (FakeExternalCmdExit name exit sig).WaitStatus = true ∧
        WaitStatus.ExitStatus (FakeExternalCmdExit name exit sig).WaitStatus = 0)) ∧
    (∀ r, NewExternalCmdExit name (FakeExternalCmdExit name exit sig).WaitStatus 0 = some r →
      r = FakeExternalCmdExit name exit sig ∧
      ExternalCmdExit.Error r = ExternalCmdExit.Error (FakeExternalCmdExit name exit sig)) := by
  refine ⟨rfl, (newExternalCmdExit_ok_iff name _ 0).1, ?_⟩
  intro r hr
  by_cases hc : (WaitStatus.Exited (FakeExternalCmdExit name exit sig).WaitStatus &&
      WaitStatus.ExitStatus (FakeExternalCmdExit name exit sig).WaitStatus == 0) = true
  · simp [NewExternalCmdExit, hc] at hr
  · simp [NewExternalCmdExit, hc] at hr
    have : r = FakeExternalCmdExit name exit sig := by
      simp [← hr, FakeExternalCmdExit]
    exact ⟨this, by rw [this]⟩

/-- Witness for C3 at `exit = 1`, `sig = 0`: the synthetic status is 256 and
the decoder reproduces the synthetic value exactly. -/
theorem fakeExternalCmdExit_witness :
    (⟨256, "x", 0⟩ : ExternalCmdExit) = FakeExternalCmdExit "x" 1 0 ∧
    ExternalCmdExit.Error ⟨256, "x", 0⟩ =
      ExternalCmdExit.Error (FakeExternalCmdExit "x" 1 0) :=
  (fakeExternalCmdExit_decodes_like_real "x" 1 0).2.2 ⟨256, "x", 0⟩ (by decide)

/-- Claim C4: `allok` is true iff every element is a nil pointer or has a
nil cause; vacuously true on the empty slice. -/
theorem allok_iff_all_ok (es : List (Option Exception)) :
    (allok es = true ↔ ∀ e ∈ es, ∀ exc, e = some exc → exc.cause = none) ∧
    allok [] = true := by
  refine ⟨?_, rfl⟩
  induction es with
  | nil => simp [allok]
  | cons e rest ih =>
    cases e with
    | none => simpa [allok] using ih
    | some exc =>
      cases exc with
      | mk c tb =>
        cases c with
        | none => simpa [allok, Exception.cause] using ih
        | some cc => simp [allok, Exception.cause]

/-- Witness for C4: a slice of two OK slots passes, via the characterization. -/
theorem allok_witness : allok [some OK, some OK] = true :=
  (allok_iff_all_ok [some OK, some OK]).1.mpr (by
    intro e he exc hexc
    rcases List.mem_cons.mp he with rfl | he2
    · cases hexc; rfl
    · rcases List.mem_cons.mp he2 with rfl | he3
      · cases hexc; rfl
      · simp at he3)

theorem pipelineSlots_eq_map (errs : List (Option Exception)) :
    pipelineSlots errs = errs.map slotString := by
  induction errs with
  | nil => simp [pipelineSlots]
  | cons e rest ih => simp [pipelineSlots, ih]

/-- Claim C5: `PipelineError.Error` renders the stage results in index order
as a parenthesized `" | "`-separated list, with nil-pointer and nil-cause
slots rendered as `<nil>` and every other slot as its own error message; on
`[nil, errA, nil]` this gives `(<nil> | errA-message | <nil>)`. -/
theorem pipelineError_error_renders_slots (pe : PipelineError) :
    PipelineError.Error pe =
      "(" ++ (String.intercalate " | " (pe.Errors.map slotString) ++ ")") ∧
    slotString none = "<nil>" ∧
    (∀ tb, slotString (some (.mk none tb)) = "<nil>") ∧
    (∀ c tb, slotString (some (.mk (some c) tb)) = Err.Error c) ∧
    PipelineError.Error
        ⟨[none, some (.mk (some (.plain "errA-message")) none), none]⟩ =
      "(<nil> | errA-message | <nil>)" := by
  refine ⟨by simp [PipelineError.Error, pipelineSlots_eq_map], by simp [slotString],
    fun tb => by simp [slotString], fun c tb => by simp [slotString], ?_⟩
  have hs : pipelineSlots [none, some (.mk (some (.plain "errA-message")) none), none] =
      ["<nil>", "errA-message", "<nil>"] := by
    simp [pipelineSlots, slotString, Err.Error]
  simp [PipelineError.Error, hs]
  rfl

/-- Witness for C5 at the three-slot example from the spec. -/
theorem pipelineError_error_witness :
    PipelineError.Error
        ⟨[none, some (.mk (some (.plain "errA-message")) none), none]⟩ =
      "(<nil> | errA-message | <nil>)" :=
  (pipelineError_error_renders_slots ⟨[]⟩).2.2.2.2

/-- Claim C6: `Exception.Repr` yields `$ok` on a nil cause, delegates to the
cause's own `Repr` when the cause implements `Reprer` (flow signals and
pipeline errors), and otherwise falls back to `?(error <quoted message>)`. -/
theorem exception_repr_cases (exc : Exception) (indent : Int) :
    (exc.cause = none → Exception.Repr exc indent = some "$ok") ∧
    (∀ f, exc.cause = some (.flow f) →
      Exception.Repr exc indent = some (flowRepr f)) ∧
    (∀ errs, exc.cause = some (.pipeline errs) →
      Exception.Repr exc indent = PipelineError.Repr ⟨errs⟩ indent) ∧
    (∀ msg, exc.cause = some (.plain msg) →
      Exception.Repr exc indent = some ("?(error " ++ (Quote msg ++ ")"))) ∧
    (∀ e, exc.cause = some (.extExit e) →
      Exception.Repr exc indent =
        some ("?(error " ++ (Quote (ExternalCmdExit.Error e) ++ ")"))) := by
  cases exc with
  | mk c tb =>
    simp only [Exception.cause]
    refine ⟨fun h => ?_, fun f h => ?_, fun errs h => ?_, fun msg h => ?_,
      fun e h => ?_⟩ <;> subst h <;>
      simp [Exception.Repr, Err.reprOf, PipelineError.Repr]

/-- Witness for C6: the zero-value exception renders as `$ok`, and a plain
cause takes the quoted fallback. -/
theorem exception_repr_witness :
    Exception.Repr (Exception.mk (some (Err.plain "boom")) none) 0 =
      some ("?(error " ++ (Quote "boom" ++ ")")) :=
  (exception_repr_cases (Exception.mk (some (Err.plain "boom")) none) 0).2.2.2.1
    "boom" rfl

/-- Claim C7: the non-success messages of `ExternalCmdExit.Error`:
signal-terminated statuses give `killed by signal` with `(core dumped)`
appended exactly when a core dump occurred; stopped statuses give
`stopped by signal ... (pid=...)` with a `(trapped ...)` suffix exactly when
the trap cause is present; nonzero normal exits give `exited with <code>`;
anything else gives the defensive unknown-status message with the command
name and the raw status. -/
theorem externalCmdExit_error_messages (e : ExternalCmdExit) :
    (WaitStatus.Signaled e.WaitStatus = true →
      ExternalCmdExit.Error e =
        (if WaitStatus.CoreDump e.WaitStatus = true then
          (Quote e.CmdName ++ " killed by signal " ++
            signalString (WaitStatus.Signal e.WaitStatus)) ++ " (core dumped)"
        else
          Quote e.CmdName ++ " killed by signal " ++
            signalString (WaitStatus.Signal e.WaitStatus))) ∧
    (WaitStatus.Stopped e.WaitStatus = true →
      ExternalCmdExit.Error e =
        (if WaitStatus.TrapCause e.WaitStatus != -1 then
          (Quote e.CmdName ++ " stopped by signal " ++
            (signalString (WaitStatus.StopSignal e.WaitStatus) ++
              (" (pid=" ++ (toString e.Pid ++ ")")))) ++
            (" (trapped " ++ (toString (WaitStatus.TrapCause e.WaitStatus) ++ ")"))
        else
          Quote e.CmdName ++ " stopped by signal " ++
            (signalString (WaitStatus.StopSignal e.WaitStatus) ++
              (" (pid=" ++ (toString e.Pid ++ ")"))))) ∧
    (WaitStatus.Exited e.WaitStatus = true →
      WaitStatus.ExitStatus e.WaitStatus ≠ 0 →
      ExternalCmdExit.Error e =
        Quote e.CmdName ++ " exited with " ++
          toString (WaitStatus.ExitStatus e.WaitStatus)) ∧
    (WaitStatus.Exited e.WaitStatus = false →
      WaitStatus.Signaled e.WaitStatus = false →
      WaitStatus.Stopped e.WaitStatus = false →
      ExternalCmdExit.Error e =
        Quote e.CmdName ++ " has unknown WaitStatus " ++ toString e.WaitStatus) := by
  refine ⟨fun hSig => ?_, fun hStop => ?_, fun hExit _ => ?_,
    fun hNoExit hNoSig hNoStop => ?_⟩
  · simp [ExternalCmdExit.Error, hSig, signaled_not_exited hSig]
  · obtain ⟨hne, hns⟩ := stopped_masks hStop
    simp [ExternalCmdExit.Error, hStop, hne, hns]
  · simp [ExternalCmdExit.Error, hExit]
  · simp [ExternalCmdExit.Error, hNoExit, hNoSig, hNoStop]

/-- Witness for C7: status 9 is termination by SIGKILL without core dump. -/
theorem externalCmdExit_error_witness :
    ExternalCmdExit.Error ⟨9, "cat", 0⟩ = "cat killed by signal killed" := by
  have h := (externalCmdExit_error_messages ⟨9, "cat", 0⟩).1 (by decide)
  rw [h]
  decide

/-- Claim C8 (code bug): for the three named constants `Flow.Error` does
return the lowercase names and `Flow.Repr` the `?(...)` forms, but for any
tag outside the table (witnessed by tag 3) the `fmt.Sprintf("!(BAD FLOW:
%v)", f)` fallback re-invokes `Flow.Error` on the same value through the
`%v` verb (a `Flow` is an `error`), so the call never returns at any
recursion depth — it crashes by stack overflow instead of producing a
`BAD FLOW` string. -/
theorem flow_error_bad_tag_diverges :
    (∀ fuel, flowErrorFuel fuel 3 = none) ∧
    (∀ fuel, flowErrorFuel (fuel + 1) 0 = some "return") ∧
    (∀ fuel, flowErrorFuel (fuel + 1) 1 = some "break") ∧
    (∀ fuel, flowErrorFuel (fuel + 1) 2 = some "continue") ∧
    flowReprFuel 1 0 = some "?(return)" ∧
    flowReprFuel 1 1 = some "?(break)" ∧
    flowReprFuel 1 2 = some "?(continue)" := by
  refine ⟨?_, fun fuel => rfl, fun fuel => rfl, fun fuel => rfl, rfl, rfl, rfl⟩
  intro fuel
  induction fuel with
  | zero => rfl
  | succ n ih => simp [flowErrorFuel, flowNames, ih]

/-- Claim C9: `Exception.Error` and `Exception.Pprint` dereference the nil
cause and panic exactly when the cause is nil — including on the shared `OK`
sentinel — while `Bool` and `Repr` stay total on success values. -/
theorem exception_error_pprint_panic_iff_nil_cause :
    (∀ exc : Exception, Exception.Error exc = none ↔ exc.cause = none) ∧
    (∀ exc : Exception, Exception.Pprint exc = none ↔ exc.cause = none) ∧
    Exception.Error OK = none ∧
    Exception.Pprint OK = none ∧
    (∀ indent, Exception.Repr OK indent = some "$ok") ∧
    Exception.Bool OK = true := by
  refine ⟨fun exc => ?_, fun exc => ?_, rfl, rfl,
    fun indent => by simp [OK, Exception.Repr], rfl⟩ <;>
    cases exc with
    | mk c tb =>
      cases c <;> simp [Exception.Error, Exception.Pprint, Exception.cause]

/-- Witness for C9: the shared `OK` sentinel, whose cause is nil, panics in
`Error()`. -/
theorem exception_error_pprint_witness : Exception.Error OK = none :=
  (exception_error_pprint_panic_iff_nil_cause.1 OK).mpr rfl

theorem pipelineReprSlots_of_nil_slot (errs : List (Option Exception))
    (indent : Int) (h : none ∈ errs) :
    pipelineReprSlots errs indent = none := by
  induction errs with
  | nil => simp at h
  | cons e rest ih =>
    rcases List.mem_cons.mp h with rfl | hrest
    · simp [pipelineReprSlots, exceptionPtrRepr]
    · have hr := ih hrest
      cases hrepr : exceptionPtrRepr e (indent + multiErrorHeadLen) <;>
        simp [pipelineReprSlots, hrepr, hr]

/-- Claim C10: `PipelineError.Repr` calls `Repr` on every slot with no nil
check, so any nil slot makes the whole rendering panic (`none`), even though
`PipelineError.Error` renders the same slot as `<nil>`. -/
theorem pipelineError_repr_panics_on_nil_slot (pe : PipelineError)
    (indent : Int) (h : none ∈ pe.Errors) :
    PipelineError.Repr pe indent = none ∧
    "<nil>" ∈ pe.Errors.map slotString := by
  constructor
  · simp [PipelineError.Repr, pipelineRepr,
      pipelineReprSlots_of_nil_slot pe.Errors indent h]
  · exact List.mem_map.mpr ⟨none, h, by simp [slotString]⟩

/-- Witness for C10 on the one-slot pipeline whose only slot is nil. -/
theorem pipelineError_repr_witness :
    PipelineError.Repr ⟨[none]⟩ 0 = none ∧
    "<nil>" ∈ ([none] : List (Option Exception)).map slotString :=
  pipelineError_repr_panics_on_nil_slot ⟨[none]⟩ 0 (by simp)
